import Mathlib

/-!
Verification of the retry / http-service core of the repository.

The embedding below translates the TypeScript source into Lean:
* `retryAsync` embeds the free function `retryAsync` of `src/src/api/retry.ts`
  (lines 85-108).
* `Retry.retryAsync` embeds the class method `Retry.retryAsync` of
  `src/src/api/retry.ts` (lines 31-68); the variant in `src/src/api/api.ts`
  (lines 444-489, the `utils/retry` module used by `http-service.ts`) has the
  identical control flow modulo argument packaging, so the same definition
  embeds both.
* `HttpService.*` embeds `src/src/api/http-service.ts`.
* `logFormatter` embeds `src/src/api/utils/log-formatter.ts`.

An asynchronous operation is modelled as a function `Nat → Except ε α` giving
the outcome of its i-th invocation (0-based).  The executor is instrumented
with a trace recording how many times the operation was invoked, which delays
were awaited, and which debug messages were emitted, so that the observable
behaviour of the source can be stated and proved.
-/

namespace HttpRepo

/-- Retry policy options (`RetryOptions` in `src/src/api/retry.ts`):
`{ maxRetryCount: number; delayBetweenRetries: number }`.  The retry count is
an integer (it is compared with `> 1` and decremented), the delay a
non-negative duration in milliseconds. -/
structure RetryOptions where
  maxRetryCount : Int
  delayBetweenRetries : Nat
deriving Repr, DecidableEq

/-- Successful outcome of `Retry.retryAsync` (`RetryResult<T>` in
`src/src/api/retry.ts`): the result together with the `maxRetryCount` field of
the `retryOptions` in effect for the succeeding invocation. -/
structure RetryResult (α : Type) where
  maxRetryCount : Int
  result : α
deriving Repr, DecidableEq

/-- Observable trace of one run of `Retry.retryAsync`: final outcome, number
of invocations of the operation, the delays awaited (in order), and the debug
messages emitted (in order). -/
structure RetryTrace (ε α : Type) where
  outcome : Except ε (RetryResult α)
  invocations : Nat
  delays : List Nat
  logs : List String
deriving Repr

/-- The free function `retryAsync` of `src/src/api/retry.ts` (lines 85-108),
with the `RetryOptions` destructured into `m`/`d` exactly as the source's
parameter list does.  `op k` is the outcome of invocation `k`; `invoked`
counts the invocations already made before this call.  Besides the source's
return value the embedding returns the number of invocations this call
performed and the delays it awaited. -/
def retryAsync (op : Nat → Except ε α) (invoked : Nat) (m : Int) (d : Nat) :
    Except ε α × Nat × List Nat :=
  match op invoked with
  | .ok v => (.ok v, 1, [])
  | .error e =>
    if h : m > 1 then
      let r := retryAsync op (invoked + 1) (m - 1) d
      (r.1, r.2.1 + 1, d :: r.2.2)
    else
      (.error e, 1, [])
termination_by (m - 1).toNat
decreasing_by omega

/-- The class method `Retry.retryAsync` of `src/src/api/retry.ts`
(lines 31-68): on success it logs `'Successfully fetched result in retry'` and
returns the result with the current `maxRetryCount`; on failure with
`maxRetryCount > 1` it awaits `delayBetweenRetries`, logs the retry
announcement with the decremented budget and recurses on the decremented
options; otherwise it rethrows the error.  The correlation guid is passed to
the logger unchanged and does not influence control flow, so it is omitted
from the trace. -/
def Retry.retryAsync (op : Nat → Except ε α) (invoked : Nat) (m : Int) (d : Nat) :
    RetryTrace ε α :=
  match op invoked with
  | .ok v =>
    { outcome := .ok ⟨m, v⟩
      invocations := 1
      delays := []
      logs := ["Successfully fetched result in retry"] }
  | .error e =>
    if h : m > 1 then
      let r := Retry.retryAsync op (invoked + 1) (m - 1) d
      { outcome := r.outcome
        invocations := r.invocations + 1
        delays := d :: r.delays
        logs := ("Starting retry " ++ toString (m - 1)) :: r.logs }
    else
      { outcome := .error e
        invocations := 1
        delays := []
        logs := [] }
termination_by (m - 1).toNat
decreasing_by omega

/-- The http operations enum (`HttpOperations` in `src/src/api/http-service.ts`). -/
inductive HttpOperations where
  | POST
  | PUT
  | DELETE
  | PATCH
  | GET
deriving Repr, DecidableEq

/-- String value of each enum member, as declared in the source. -/
def HttpOperations.str : HttpOperations → String
  | .POST => "POST"
  | .PUT => "PUT"
  | .DELETE => "DELETE"
  | .PATCH => "PATCH"
  | .GET => "GET"

/-- Errors observable from a facade call: a synchronous invalid-argument
failure raised by a guard, or the error of the wrapped operation propagated by
the retry executor. -/
inductive FacadeError (ε : Type) where
  | invalidArgument (param : String)
  | operation (e : ε)
deriving Repr, DecidableEq

/-- Observable trace of one facade verb call through
`HttpService._makeRequest`: outcome, how many times the underlying axios
transport was actually performed, how many times the retry executor invoked
the one-attempt closure, the delays awaited and the debug messages emitted. -/
structure HttpTrace (ε α : Type) where
  outcome : Except (FacadeError ε) α
  transportPerformances : Nat
  operationInvocations : Nat
  delays : List Nat
  debugMessages : List String
deriving Repr

/-- Modelled from the spec: `Guard.throwIfNullOrEmpty` — the file
`src/api/utils/guard.ts` is not under `src/`, only its call sites are.
Per spec §7, an InvalidArgument failure is "raised synchronously before any
attempt is made" when "a required parameter (`target`/URL, logger instance,
formatter inputs) is missing or empty".  A string-or-payload parameter is
modelled as `Option String`; the guard fails exactly when the value is absent
(`none`) or empty. -/
def Guard.throwIfNullOrEmpty (value : Option String) (paramName : String) :
    Except String Unit :=
  match value with
  | none => .error ("Required parameter missing or empty: " ++ paramName)
  | some s =>
    if s.isEmpty then .error ("Required parameter missing or empty: " ++ paramName)
    else .ok ()

/-- The shared no-retry default (`HttpService.noRetry`,
`src/src/api/http-service.ts` lines 45-48). -/
def HttpService.noRetry : RetryOptions :=
  { delayBetweenRetries := 0, maxRetryCount := 1 }

/-- Embeds `HttpService.getRetryConfiguration` (`src/src/api/http-service.ts` lines
301-307): `this.options.retryOptions || HttpService.noRetry`.  A configured
options object is truthy, so it is returned unchanged; an absent one yields
the shared default. -/
def HttpService.getRetryConfiguration (configured : Option RetryOptions) :
    RetryOptions :=
  configured.getD HttpService.noRetry

/-- Trace of a call that failed a guard before building the request: nothing
was performed, invoked, awaited or logged. -/
def invalidTrace (param : String) : HttpTrace ε α :=
  { outcome := .error (.invalidArgument param)
    transportPerformances := 0
    operationInvocations := 0
    delays := []
    debugMessages := [] }

/-- Embeds `HttpService._makeRequest` (`src/src/api/http-service.ts` lines 230-289).
`transport k` is the outcome of the k-th actual performance of the axios
request.  Faithful to the source: the axios call is issued ONCE, before the
one-attempt closure is built (line 247-266, ahead of `operationPromise` on
line 268), so the closure handed to the retry executor awaits the same
already-settled promise on every invocation — `fun i => settled` ignores the
invocation index and `transportPerformances` is 1.  Both debug messages
interpolate `HttpOperations.GET` regardless of `method` (lines 245 and 284),
and the transport dispatch itself is abstracted by `transport`, so `method`
influences nothing else. -/
def HttpService.makeRequest (transport : Nat → Except ε α)
    (method : HttpOperations) (url : String) (configured : Option RetryOptions) :
    HttpTrace ε α :=
  match Guard.throwIfNullOrEmpty (some url) "url" with
  | .error _ => invalidTrace "url"
  | .ok _ =>
    let retryConfiguration := HttpService.getRetryConfiguration configured
    let preMsg := "Doing a " ++ HttpOperations.GET.str ++ " operation on url " ++ url
    let settled : Except ε α := transport 0
    let operationToExecute : Nat → Except ε α := fun _ => settled
    let r := Retry.retryAsync operationToExecute 0
      retryConfiguration.maxRetryCount retryConfiguration.delayBetweenRetries
    match r.outcome with
    | .ok res =>
      let retryCountLeft := res.maxRetryCount
      let postMsg := "Successfully fetched " ++ url ++ " ("
        ++ HttpOperations.GET.str ++ " operation) after "
        ++ toString (retryConfiguration.maxRetryCount - retryCountLeft) ++ " retries"
      { outcome := .ok res.result
        transportPerformances := 1
        operationInvocations := r.invocations
        delays := r.delays
        debugMessages := preMsg :: (r.logs ++ [postMsg]) }
    | .error e =>
      { outcome := .error (.operation e)
        transportPerformances := 1
        operationInvocations := r.invocations
        delays := r.delays
        debugMessages := preMsg :: r.logs }

/-- Embeds `HttpService.get` (`src/src/api/http-service.ts` lines 97-112): guards the
url, then delegates to `_makeRequest` with the GET method.  A missing url is
modelled as `none`. -/
def HttpService.get (transport : Nat → Except ε α) (url : Option String)
    (configured : Option RetryOptions) : HttpTrace ε α :=
  match Guard.throwIfNullOrEmpty url "url" with
  | .error _ => invalidTrace "url"
  | .ok _ => HttpService.makeRequest transport HttpOperations.GET (url.getD "") configured

/-- Embeds `HttpService.post` (`src/src/api/http-service.ts` lines 120-141): guards
the url, then the body, then delegates to `_makeRequest`. -/
def HttpService.post (transport : Nat → Except ε α) (url body : Option String)
    (configured : Option RetryOptions) : HttpTrace ε α :=
  match Guard.throwIfNullOrEmpty url "url" with
  | .error _ => invalidTrace "url"
  | .ok _ =>
    match Guard.throwIfNullOrEmpty body "body" with
    | .error _ => invalidTrace "body"
    | .ok _ => HttpService.makeRequest transport HttpOperations.POST (url.getD "") configured

/-- Embeds `HttpService.put` (`src/src/api/http-service.ts` lines 149-170). -/
def HttpService.put (transport : Nat → Except ε α) (url body : Option String)
    (configured : Option RetryOptions) : HttpTrace ε α :=
  match Guard.throwIfNullOrEmpty url "url" with
  | .error _ => invalidTrace "url"
  | .ok _ =>
    match Guard.throwIfNullOrEmpty body "body" with
    | .error _ => invalidTrace "body"
    | .ok _ => HttpService.makeRequest transport HttpOperations.PUT (url.getD "") configured

/-- Embeds `HttpService.patch` (`src/src/api/http-service.ts` lines 178-199). -/
def HttpService.patch (transport : Nat → Except ε α) (url body : Option String)
    (configured : Option RetryOptions) : HttpTrace ε α :=
  match Guard.throwIfNullOrEmpty url "url" with
  | .error _ => invalidTrace "url"
  | .ok _ =>
    match Guard.throwIfNullOrEmpty body "body" with
    | .error _ => invalidTrace "body"
    | .ok _ => HttpService.makeRequest transport HttpOperations.PATCH (url.getD "") configured

/-- Embeds `HttpService.delete` (`src/src/api/http-service.ts` lines 206-221). -/
def HttpService.delete (transport : Nat → Except ε α) (url : Option String)
    (configured : Option RetryOptions) : HttpTrace ε α :=
  match Guard.throwIfNullOrEmpty url "url" with
  | .error _ => invalidTrace "url"
  | .ok _ => HttpService.makeRequest transport HttpOperations.DELETE (url.getD "") configured

/-- JavaScript truthiness of the `state` string parameter of the log
formatter: present and non-empty. -/
def stateTruthy (state : Option String) : Bool :=
  match state with
  | some s => !s.isEmpty
  | none => false

/-- JavaScript truthiness of `error && error.message` in the log formatter: an
`Error` is modelled by its message string; the conjunct is truthy when the
error is present with a non-empty message. -/
def errTruthy (error : Option String) : Bool :=
  match error with
  | some m => !m.isEmpty
  | none => false

/-- Embeds `logFormatter` (`src/src/api/utils/log-formatter.ts` lines 9-35).  The
guid is modelled by its string rendering; a `Guid` object is truthy exactly
when present.  Each branch reproduces the source's condition and template
literal. -/
def logFormatter (state guid error : Option String) : Except String String :=
  if guid.isSome && stateTruthy state && errTruthy error then
    .ok ((guid.getD "") ++ " " ++ (state.getD "") ++ " with error \""
      ++ (error.getD "") ++ "\"")
  else if stateTruthy state && errTruthy error then
    .ok ((state.getD "") ++ " with error \"" ++ (error.getD "") ++ "\"")
  else if guid.isSome && stateTruthy state then
    .ok ((guid.getD "") ++ " " ++ (state.getD ""))
  else if stateTruthy state then
    .ok (state.getD "")
  else if guid.isSome && errTruthy error then
    .ok ((guid.getD "") ++ " " ++ (error.getD ""))
  else if errTruthy error then
    .ok (error.getD "")
  else
    .error "Invalid inputs provided for log formatter"

/-- The presence-based specification of the formatter, written from the
amended claim's words: the output is decided solely by which of the three
inputs is present (state or error meaning supplied and non-empty, guid
meaning supplied), with the spec's priority order, and it fails exactly when
neither state nor error is present — a correlation id alone does not prevent
the failure. -/
def logFormatterSpec (state guid error : Option String) : Except String String :=
  match stateTruthy state, guid.isSome, errTruthy error with
  | true, true, true =>
    .ok ((guid.getD "") ++ " " ++ (state.getD "") ++ " with error \""
      ++ (error.getD "") ++ "\"")
  | true, false, true =>
    .ok ((state.getD "") ++ " with error \"" ++ (error.getD "") ++ "\"")
  | true, true, false => .ok ((guid.getD "") ++ " " ++ (state.getD ""))
  | true, false, false => .ok (state.getD "")
  | false, true, true => .ok ((guid.getD "") ++ " " ++ (error.getD ""))
  | false, false, true => .ok (error.getD "")
  | false, _, false => .error "Invalid inputs provided for log formatter"

/-- Operation family used by the eventual-success claims: fails on every
invocation before index `s`, succeeds with `v` from invocation `s` on. -/
def failsUntil (errs : Nat → ε) (v : α) (s : Nat) : Nat → Except ε α :=
  fun i => if i < s then Except.error (errs i) else Except.ok v

/-- One-step unfolding of `Retry.retryAsync` when the current invocation
succeeds. -/
theorem Retry.retryAsync_of_ok (op : Nat → Except ε α) (j : Nat) (m : Int)
    (d : Nat) (v : α) (h : op j = Except.ok v) :
    Retry.retryAsync op j m d =
      { outcome := Except.ok ⟨m, v⟩
        invocations := 1
        delays := []
        logs := ["Successfully fetched result in retry"] } := by
  rw [Retry.retryAsync.eq_def, h]

/-- One-step unfolding of `Retry.retryAsync` when the current invocation
fails with budget left: wait, announce, recurse on the decremented budget. -/
theorem Retry.retryAsync_of_error_retry (op : Nat → Except ε α) (j : Nat)
    (m : Int) (d : Nat) (e : ε) (h : op j = Except.error e) (hm : m > 1) :
    Retry.retryAsync op j m d =
      { outcome := (Retry.retryAsync op (j + 1) (m - 1) d).outcome
        invocations := (Retry.retryAsync op (j + 1) (m - 1) d).invocations + 1
        delays := d :: (Retry.retryAsync op (j + 1) (m - 1) d).delays
        logs := ("Starting retry " ++ toString (m - 1))
          :: (Retry.retryAsync op (j + 1) (m - 1) d).logs } := by
  rw [Retry.retryAsync.eq_def, h]
  simp only [dif_pos hm]

/-- One-step unfolding of `Retry.retryAsync` when the current invocation
fails with the budget exhausted: rethrow, no delay, no announcement. -/
theorem Retry.retryAsync_of_error_exhausted (op : Nat → Except ε α) (j : Nat)
    (m : Int) (d : Nat) (e : ε) (h : op j = Except.error e) (hm : ¬m > 1) :
    Retry.retryAsync op j m d =
      { outcome := Except.error e
        invocations := 1
        delays := []
        logs := [] } := by
  rw [Retry.retryAsync.eq_def, h]
  simp only [dif_neg hm]

/-- Run of `Retry.retryAsync` on an always-failing operation, from any start
index: the budget is exhausted, every inter-attempt delay is awaited, and the
error of the last invocation is rethrown. -/
theorem retry_allFail (errs : Nat → ε) (d : Nat) (n : Nat) (hn : 1 ≤ n) :
    ∀ j : Nat,
      (Retry.retryAsync (fun k => (Except.error (errs k) : Except ε α)) j (n : Int) d).outcome
          = Except.error (errs (j + n - 1)) ∧
      (Retry.retryAsync (fun k => (Except.error (errs k) : Except ε α)) j (n : Int) d).invocations
          = n ∧
      (Retry.retryAsync (fun k => (Except.error (errs k) : Except ε α)) j (n : Int) d).delays
          = List.replicate (n - 1) d := by
  induction n, hn using Nat.le_induction with
  | base =>
    intro j
    rw [Retry.retryAsync_of_error_exhausted _ j _ d (errs j) rfl (by norm_num)]
    simp
  | succ n hn ih =>
    intro j
    have hgt : ((n + 1 : Nat) : Int) > 1 := by push_cast; omega
    rw [Retry.retryAsync_of_error_retry _ j _ d (errs j) rfl hgt]
    have hcast : ((n + 1 : Nat) : Int) - 1 = (n : Int) := by push_cast; ring
    rw [hcast]
    obtain ⟨ho, hi, hd⟩ := ih (j + 1)
    refine ⟨?_, ?_, ?_⟩
    · rw [ho, show j + 1 + n - 1 = j + (n + 1) - 1 from by omega]
    · rw [hi]
    · rw [hd, show n + 1 - 1 = (n - 1) + 1 from by omega, List.replicate_succ]

/-- C2: for every policy with `maxRetryCount = n ≥ 1` and an operation that
fails on every invocation, `Retry.retryAsync` invokes the operation exactly
`n` times, awaits exactly `n - 1` inter-attempt delays, each of duration
`delayBetweenRetries`, and propagates exactly the error raised by the
operation's last (n-th) invocation. -/
theorem retry_exhausts_budget_and_rethrows_last_error (n : Nat) (hn : 1 ≤ n)
    (d : Nat) (errs : Nat → ε) :
    (Retry.retryAsync (fun k => (Except.error (errs k) : Except ε α)) 0 (n : Int) d).invocations
        = n ∧
    (Retry.retryAsync (fun k => (Except.error (errs k) : Except ε α)) 0 (n : Int) d).delays
        = List.replicate (n - 1) d ∧
    (Retry.retryAsync (fun k => (Except.error (errs k) : Except ε α)) 0 (n : Int) d).outcome
        = Except.error (errs (n - 1)) := by
  obtain ⟨ho, hi, hd⟩ := retry_allFail (α := α) errs d n hn 0
  refine ⟨hi, hd, ?_⟩
  rw [ho, show 0 + n - 1 = n - 1 from by omega]

/-- Witness for C2 at `n = 3`, `d = 7`, errors labelled by invocation index. -/
theorem retry_exhausts_budget_and_rethrows_last_error_witness :
    1 ≤ 3 ∧
    ((Retry.retryAsync (fun k => (Except.error k : Except Nat Nat)) 0 ((3 : Nat) : Int) 7).invocations
        = 3 ∧
     (Retry.retryAsync (fun k => (Except.error k : Except Nat Nat)) 0 ((3 : Nat) : Int) 7).delays
        = List.replicate (3 - 1) 7 ∧
     (Retry.retryAsync (fun k => (Except.error k : Except Nat Nat)) 0 ((3 : Nat) : Int) 7).outcome
        = Except.error (3 - 1)) :=
  ⟨by norm_num,
   retry_exhausts_budget_and_rethrows_last_error 3 (by norm_num) 7 (fun k => k)⟩

/-- Run of `Retry.retryAsync` on an operation succeeding first at global
invocation index `j + s`, started at index `j` with budget `m > s`: the
operation is invoked `s + 1` times, `s` delays are awaited, and the success
carries the budget in effect for the succeeding invocation, `m - s`. -/
theorem retry_succAt (errs : Nat → ε) (v : α) (d : Nat) :
    ∀ s j : Nat, ∀ m : Int, (s : Int) < m →
      (Retry.retryAsync (failsUntil errs v (j + s)) j m d).outcome
          = Except.ok ⟨m - s, v⟩ ∧
      (Retry.retryAsync (failsUntil errs v (j + s)) j m d).invocations = s + 1 ∧
      (Retry.retryAsync (failsUntil errs v (j + s)) j m d).delays
          = List.replicate s d := by
  intro s
  induction s with
  | zero =>
    intro j m _
    have hop : failsUntil errs v (j + 0) j = Except.ok v := by
      unfold failsUntil
      rw [if_neg (by omega)]
    rw [Retry.retryAsync_of_ok _ j m d v hop]
    norm_num
  | succ s ih =>
    intro j m hm
    have hs1 : ((s : Nat) : Int) < m - 1 := by push_cast at hm ⊢; omega
    have hgt : m > 1 := by
      have : ((s + 1 : Nat) : Int) ≥ 1 := by push_cast; omega
      omega
    have hj : j + (s + 1) = j + 1 + s := by omega
    have hop : failsUntil errs v (j + 1 + s) j = Except.error (errs j) := by
      unfold failsUntil
      rw [if_pos (by omega)]
    rw [hj, Retry.retryAsync_of_error_retry _ j m d (errs j) hop hgt]
    obtain ⟨ho, hi, hd⟩ := ih (j + 1) (m - 1) hs1
    refine ⟨?_, ?_, ?_⟩
    · rw [ho, show m - 1 - (s : Int) = m - ((s + 1 : Nat) : Int) from by push_cast; ring]
    · rw [hi]
    · rw [hd, List.replicate_succ]

/-- C3: for every policy with `maxRetryCount = n ≥ 1` and an operation that
fails on its first `k - 1` invocations and succeeds on invocation `k ≤ n`,
`Retry.retryAsync` invokes the operation exactly `k` times, awaits exactly
`k - 1` delays, and returns a result equal to the value the operation
succeeded with. -/
theorem retry_returns_success_value (n k : Nat) (hk : 1 ≤ k) (hkn : k ≤ n)
    (d : Nat) (errs : Nat → ε) (v : α) :
    (Retry.retryAsync (failsUntil errs v (k - 1)) 0 (n : Int) d).invocations = k ∧
    (Retry.retryAsync (failsUntil errs v (k - 1)) 0 (n : Int) d).delays
        = List.replicate (k - 1) d ∧
    ∃ remaining, (Retry.retryAsync (failsUntil errs v (k - 1)) 0 (n : Int) d).outcome
        = Except.ok ⟨remaining, v⟩ := by
  have hcond : ((k - 1 : Nat) : Int) < (n : Int) := by omega
  obtain ⟨ho, hi, hd⟩ := retry_succAt errs v d (k - 1) 0 (n : Int) hcond
  rw [Nat.zero_add] at ho hi hd
  refine ⟨?_, hd, ⟨(n : Int) - ((k - 1 : Nat) : Int), ho⟩⟩
  rw [hi]
  omega

/-- Witness for C3 at `n = 3`, `k = 2`, `d = 11`, success value `42`. -/
theorem retry_returns_success_value_witness :
    1 ≤ 2 ∧ 2 ≤ 3 ∧
    ((Retry.retryAsync (failsUntil (fun i => i) (42 : Nat) (2 - 1)) 0 ((3 : Nat) : Int) 11).invocations
        = 2 ∧
     (Retry.retryAsync (failsUntil (fun i => (i : Nat)) (42 : Nat) (2 - 1)) 0 ((3 : Nat) : Int) 11).delays
        = List.replicate (2 - 1) 11 ∧
     ∃ remaining,
       (Retry.retryAsync (failsUntil (fun i => (i : Nat)) (42 : Nat) (2 - 1)) 0 ((3 : Nat) : Int) 11).outcome
          = Except.ok ⟨remaining, 42⟩) :=
  ⟨by norm_num, by norm_num,
   retry_returns_success_value 3 2 (by norm_num) (by norm_num) 11 (fun i => i) 42⟩

/-- C5: on success the executor reports `maxRetryCount` of the policy in
effect for the succeeding invocation; for an original budget `n` with success
on attempt `k ≤ n` the reported count is `n - k + 1`, and the original budget
minus the reported count is the number of retries consumed, `k - 1`. -/
theorem retry_reports_attempts_remaining (n k : Nat) (hk : 1 ≤ k) (hkn : k ≤ n)
    (d : Nat) (errs : Nat → ε) (v : α) :
    (Retry.retryAsync (failsUntil errs v (k - 1)) 0 (n : Int) d).outcome
        = Except.ok ⟨(n : Int) - (k : Int) + 1, v⟩ ∧
    (n : Int) - ((n : Int) - (k : Int) + 1) = (k : Int) - 1 := by
  have hcond : ((k - 1 : Nat) : Int) < (n : Int) := by omega
  obtain ⟨ho, _, _⟩ := retry_succAt errs v d (k - 1) 0 (n : Int) hcond
  rw [Nat.zero_add] at ho
  constructor
  · rw [ho, show (n : Int) - ((k - 1 : Nat) : Int) = (n : Int) - (k : Int) + 1 from by omega]
  · ring

/-- Witness for C5 at `n = 4`, `k = 3`, `d = 5`, success value `9`. -/
theorem retry_reports_attempts_remaining_witness :
    1 ≤ 3 ∧ 3 ≤ 4 ∧
    ((Retry.retryAsync (failsUntil (fun i => i) (9 : Nat) (3 - 1)) 0 ((4 : Nat) : Int) 5).outcome
        = Except.ok ⟨(4 : Int) - (3 : Int) + 1, 9⟩ ∧
     (4 : Int) - ((4 : Int) - (3 : Int) + 1) = (3 : Int) - 1) :=
  ⟨by norm_num, by norm_num,
   retry_reports_attempts_remaining 4 3 (by norm_num) (by norm_num) 5 (fun i => i) 9⟩

/-- One-step characterisation of the free `retryAsync` when no retry budget is
left: a single invocation whose outcome is returned or rethrown verbatim. -/
theorem retryAsync_single (op : Nat → Except ε α) (j : Nat) (m : Int) (d : Nat)
    (hm : ¬m > 1) : retryAsync op j m d = (op j, 1, []) := by
  rw [retryAsync.eq_def]
  cases h : op j with
  | ok v => rfl
  | error e => simp only [dif_neg hm]

/-- C6: for every integer `maxRetryCount ≤ 1` (including `0` and negative
values) and every operation, both retry executors terminate after exactly one
invocation; on failure there is no delay and no retry announcement, the
failure propagates immediately, and the behaviour is identical to
`maxRetryCount = 1`. -/
theorem retry_low_budget_single_attempt (m : Int) (hm : m ≤ 1) (d : Nat)
    (op : Nat → Except ε α) :
    retryAsync op 0 m d = (op 0, 1, []) ∧
    retryAsync op 0 m d = retryAsync op 0 1 d ∧
    (Retry.retryAsync op 0 m d).invocations = 1 ∧
    (Retry.retryAsync op 0 m d).delays = [] ∧
    (∀ e : ε, op 0 = Except.error e →
      (Retry.retryAsync op 0 m d).logs = [] ∧
      Retry.retryAsync op 0 m d = Retry.retryAsync op 0 1 d) := by
  have hm' : ¬m > 1 := by omega
  have h1 : ¬(1 : Int) > 1 := by omega
  refine ⟨retryAsync_single op 0 m d hm', ?_, ?_, ?_, ?_⟩
  · rw [retryAsync_single op 0 m d hm', retryAsync_single op 0 1 d h1]
  · cases h : op 0 with
    | ok v => rw [Retry.retryAsync_of_ok op 0 m d v h]
    | error e => rw [Retry.retryAsync_of_error_exhausted op 0 m d e h hm']
  · cases h : op 0 with
    | ok v => rw [Retry.retryAsync_of_ok op 0 m d v h]
    | error e => rw [Retry.retryAsync_of_error_exhausted op 0 m d e h hm']
  · intro e he
    constructor
    · rw [Retry.retryAsync_of_error_exhausted op 0 m d e he hm']
    · rw [Retry.retryAsync_of_error_exhausted op 0 m d e he hm',
        Retry.retryAsync_of_error_exhausted op 0 1 d e he h1]

/-- Witness for C6 at `m = 0`, `d = 9`, an operation failing with error 42. -/
theorem retry_low_budget_single_attempt_witness :
    (0 : Int) ≤ 1 ∧
    retryAsync (fun _ => (Except.error 42 : Except Nat Nat)) 0 0 9
        = (Except.error 42, 1, []) ∧
    (Retry.retryAsync (fun _ => (Except.error 42 : Except Nat Nat)) 0 0 9).invocations = 1 ∧
    (Retry.retryAsync (fun _ => (Except.error 42 : Except Nat Nat)) 0 0 9).delays = [] ∧
    (Retry.retryAsync (fun _ => (Except.error 42 : Except Nat Nat)) 0 0 9).logs = [] := by
  have h := retry_low_budget_single_attempt 0 (by norm_num) 9
    (fun _ => (Except.error 42 : Except Nat Nat))
  exact ⟨by norm_num, h.1, h.2.2.1, h.2.2.2.1, (h.2.2.2.2 42 rfl).1⟩

/-- C7: policy resolution returns the configured retry options unchanged when
present and the shared no-retry default `{ maxRetryCount := 1,
delayBetweenRetries := 0 }` otherwise; with no policy configured, a run on an
always-failing operation makes one invocation, awaits no delay, propagates
the first error immediately, and coincides with a run under
`maxRetryCount = 1` for any delay. -/
theorem policy_resolution_default_no_retry (o : RetryOptions) (d : Nat)
    (errs : Nat → ε) :
    HttpService.getRetryConfiguration (some o) = o ∧
    HttpService.getRetryConfiguration none
        = { maxRetryCount := 1, delayBetweenRetries := 0 } ∧
    (Retry.retryAsync (fun k => (Except.error (errs k) : Except ε α)) 0
        (HttpService.getRetryConfiguration none).maxRetryCount
        (HttpService.getRetryConfiguration none).delayBetweenRetries).invocations = 1 ∧
    (Retry.retryAsync (fun k => (Except.error (errs k) : Except ε α)) 0
        (HttpService.getRetryConfiguration none).maxRetryCount
        (HttpService.getRetryConfiguration none).delayBetweenRetries).delays = [] ∧
    (Retry.retryAsync (fun k => (Except.error (errs k) : Except ε α)) 0
        (HttpService.getRetryConfiguration none).maxRetryCount
        (HttpService.getRetryConfiguration none).delayBetweenRetries).outcome
        = Except.error (errs 0) ∧
    Retry.retryAsync (fun k => (Except.error (errs k) : Except ε α)) 0
        (HttpService.getRetryConfiguration none).maxRetryCount
        (HttpService.getRetryConfiguration none).delayBetweenRetries
      = Retry.retryAsync (fun k => (Except.error (errs k) : Except ε α)) 0 1 d := by
  have h1 : ¬(1 : Int) > 1 := by omega
  have hstep := Retry.retryAsync_of_error_exhausted
    (fun k => (Except.error (errs k) : Except ε α)) 0 1 0 (errs 0) rfl h1
  have hstep' := Retry.retryAsync_of_error_exhausted
    (fun k => (Except.error (errs k) : Except ε α)) 0 1 d (errs 0) rfl h1
  refine ⟨rfl, rfl, ?_, ?_, ?_, ?_⟩
  · show (Retry.retryAsync (fun k => (Except.error (errs k) : Except ε α)) 0 1 0).invocations = 1
    rw [hstep]
  · show (Retry.retryAsync (fun k => (Except.error (errs k) : Except ε α)) 0 1 0).delays = []
    rw [hstep]
  · show (Retry.retryAsync (fun k => (Except.error (errs k) : Except ε α)) 0 1 0).outcome
        = Except.error (errs 0)
    rw [hstep]
  · show Retry.retryAsync (fun k => (Except.error (errs k) : Except ε α)) 0 1 0
        = Retry.retryAsync (fun k => (Except.error (errs k) : Except ε α)) 0 1 d
    rw [hstep, hstep']

/-- C4 counterexample: calling the formatter with only the correlation id
present (state and error absent) fails with the invalid-input error, although
one of the three inputs is present — refuting "fails exactly when none of the
three inputs is present". -/
theorem logFormatter_guid_only_fails :
    logFormatter none (some "7f2c") none
        = Except.error "Invalid inputs provided for log formatter" ∧
    (some "7f2c" : Option String).isSome = true :=
  ⟨rfl, rfl⟩

/-- C4 (amended): the formatter's output is decided solely by which inputs
are present (state/error meaning supplied and non-empty, id meaning
supplied), with the claimed priority of combinations, and it fails exactly
when neither state nor error is present — a correlation id alone does not
prevent the failure. -/
theorem logFormatter_presence_based (state guid error : Option String) :
    logFormatter state guid error = logFormatterSpec state guid error := by
  unfold logFormatter logFormatterSpec
  cases hs : stateTruthy state <;> cases hg : guid.isSome <;>
    cases hm : errTruthy error <;> simp [hs, hg, hm]

/-- C8: every facade verb called with a missing or empty url fails
synchronously with the invalid-argument failure on `url`: the resulting trace
is `invalidTrace "url"` — no transport performance, no operation invocation,
no delay and no log line ever happen. -/
theorem facade_empty_url_fails_fast (transport : Nat → Except ε α)
    (cfg : Option RetryOptions) (url : Option String)
    (hurl : url = none ∨ url = some "") (body : Option String) :
    HttpService.get transport url cfg = invalidTrace "url" ∧
    HttpService.post transport url body cfg = invalidTrace "url" ∧
    HttpService.put transport url body cfg = invalidTrace "url" ∧
    HttpService.patch transport url body cfg = invalidTrace "url" ∧
    HttpService.delete transport url cfg = invalidTrace "url" := by
  rcases hurl with h | h <;> subst h <;> exact ⟨rfl, rfl, rfl, rfl, rfl⟩

/-- Witness for C8: `get` with a missing url. -/
theorem facade_empty_url_fails_fast_witness :
    ((none : Option String) = none ∨ (none : Option String) = some "") ∧
    HttpService.get (fun k => (Except.error k : Except Nat Nat)) none none
        = invalidTrace "url" :=
  ⟨Or.inl rfl,
   (facade_empty_url_fails_fast (fun k => (Except.error k : Except Nat Nat))
      none none (Or.inl rfl) none).1⟩

/-- C10: `post`, `put` and `patch` called with a missing or empty body fail
synchronously with an invalid-argument failure: no transport performance, no
operation invocation and no delay ever happen. -/
theorem facade_empty_body_fails_fast (transport : Nat → Except ε α)
    (cfg : Option RetryOptions) (url body : Option String)
    (hb : body = none ∨ body = some "") :
    ((HttpService.post transport url body cfg).transportPerformances = 0 ∧
     (HttpService.post transport url body cfg).operationInvocations = 0 ∧
     (HttpService.post transport url body cfg).delays = [] ∧
     ∃ p, (HttpService.post transport url body cfg).outcome
        = Except.error (FacadeError.invalidArgument p)) ∧
    ((HttpService.put transport url body cfg).transportPerformances = 0 ∧
     (HttpService.put transport url body cfg).operationInvocations = 0 ∧
     (HttpService.put transport url body cfg).delays = [] ∧
     ∃ p, (HttpService.put transport url body cfg).outcome
        = Except.error (FacadeError.invalidArgument p)) ∧
    ((HttpService.patch transport url body cfg).transportPerformances = 0 ∧
     (HttpService.patch transport url body cfg).operationInvocations = 0 ∧
     (HttpService.patch transport url body cfg).delays = [] ∧
     ∃ p, (HttpService.patch transport url body cfg).outcome
        = Except.error (FacadeError.invalidArgument p)) := by
  have hb' : Guard.throwIfNullOrEmpty body "body"
      = Except.error ("Required parameter missing or empty: " ++ "body") := by
    rcases hb with h | h <;> subst h <;> rfl
  refine ⟨?_, ?_, ?_⟩ <;>
    (cases hu : Guard.throwIfNullOrEmpty url "url" <;>
      simp only [HttpService.post, HttpService.put, HttpService.patch, hu, hb',
        invalidTrace] <;>
      simp)

/-- Witness for C10: `post` with a valid url and a missing body. -/
theorem facade_empty_body_fails_fast_witness :
    ((none : Option String) = none ∨ (none : Option String) = some "") ∧
    (HttpService.post (fun k => (Except.error k : Except Nat Nat)) (some "/a")
        none none).transportPerformances = 0 :=
  ⟨Or.inl rfl,
   (facade_empty_body_fails_fast (fun k => (Except.error k : Except Nat Nat))
      none (some "/a") none (Or.inl rfl)).1.1⟩

/-- Literal folding for the pre-request debug message. -/
theorem getMsg_fold (url : String) :
    "Doing a " ++ HttpOperations.GET.str ++ " operation on url " ++ url
      = "Doing a GET operation on url " ++ url := by
  rw [show "Doing a " ++ HttpOperations.GET.str ++ " operation on url "
      = "Doing a GET operation on url " from rfl]

/-- Literal folding for the post-success debug message. -/
theorem postMsg_fold (url : String) (n : Int) :
    "Successfully fetched " ++ url ++ " (" ++ HttpOperations.GET.str
        ++ " operation) after " ++ toString n ++ " retries"
      = "Successfully fetched " ++ url ++ " (GET operation) after "
        ++ toString n ++ " retries" := by
  rw [show " (GET operation) after "
      = " (" ++ HttpOperations.GET.str ++ " operation) after " from rfl]
  simp [String.append_assoc]

/-- Value of `getLast?` on a cons whose tail ends in a singleton. -/
theorem getLast?_cons_concat (a b : β) (l : List β) :
    (a :: (l ++ [b])).getLast? = some b := by
  rw [← List.cons_append, List.getLast?_concat]

/-- C9: for every verb call reaching `_makeRequest` with a non-empty url,
the pre-request debug line reads "Doing a GET operation on url {url}" and,
on success, the last debug line reads "Successfully fetched {url} (GET
operation) after {n} retries" — both name the GET operation regardless of
the method actually executed. -/
theorem makeRequest_logs_name_GET (transport : Nat → Except ε α)
    (method : HttpOperations) (url : String) (cfg : Option RetryOptions)
    (h : url.isEmpty = false) :
    (HttpService.makeRequest transport method url cfg).debugMessages.head?
        = some ("Doing a GET operation on url " ++ url) ∧
    ∀ v, (HttpService.makeRequest transport method url cfg).outcome = Except.ok v →
      ∃ ncount : Int,
        (HttpService.makeRequest transport method url cfg).debugMessages.getLast?
          = some ("Successfully fetched " ++ url ++ " (GET operation) after "
              ++ toString ncount ++ " retries") := by
  unfold HttpService.makeRequest
  rw [show Guard.throwIfNullOrEmpty (some url) "url" = Except.ok () from by
    simp [Guard.throwIfNullOrEmpty, h]]
  dsimp only
  split
  case _ res heq =>
    constructor
    · simp [getMsg_fold]
    · intro v _
      refine ⟨(HttpService.getRetryConfiguration cfg).maxRetryCount - res.maxRetryCount, ?_⟩
      simp [getLast?_cons_concat, postMsg_fold]
  case _ e heq =>
    constructor
    · simp [getMsg_fold]
    · intro v hv
      simp at hv

/-- Witness for C9: a `POST` call still logs a GET message. -/
theorem makeRequest_logs_name_GET_witness :
    ("/posts".isEmpty = false) ∧
    (HttpService.makeRequest (fun _ => (Except.ok 5 : Except Nat Nat))
        HttpOperations.POST "/posts" none).debugMessages.head?
      = some ("Doing a GET operation on url " ++ "/posts") :=
  ⟨rfl,
   (makeRequest_logs_name_GET (fun _ => (Except.ok 5 : Except Nat Nat))
      HttpOperations.POST "/posts" none rfl).1⟩

/-- C1: concrete run of `HttpService.get` against an always-failing transport
under `{ maxRetryCount := 2, delayBetweenRetries := 100 }`: the retry
executor invokes the one-attempt closure twice (with one delay), but the
underlying transport operation is performed only once — every invocation of
the closure re-awaits the promise issued before the closure was built, and
the propagated error is the one of transport performance 0. -/
theorem http_get_single_transport_despite_retries :
    (HttpService.get (fun k => (Except.error k : Except Nat Nat)) (some "/posts")
        (some { maxRetryCount := 2, delayBetweenRetries := 100 })).operationInvocations = 2 ∧
    (HttpService.get (fun k => (Except.error k : Except Nat Nat)) (some "/posts")
        (some { maxRetryCount := 2, delayBetweenRetries := 100 })).transportPerformances = 1 ∧
    (HttpService.get (fun k => (Except.error k : Except Nat Nat)) (some "/posts")
        (some { maxRetryCount := 2, delayBetweenRetries := 100 })).delays = [100] ∧
    (HttpService.get (fun k => (Except.error k : Except Nat Nat)) (some "/posts")
        (some { maxRetryCount := 2, delayBetweenRetries := 100 })).outcome
      = Except.error (FacadeError.operation 0) := by
  have hr : Retry.retryAsync (fun _ => (Except.error 0 : Except Nat Nat)) 0 2 100
      = { outcome := Except.error 0
          invocations := 2
          delays := [100]
          logs := ["Starting retry 1"] } := by
    simp [Retry.retryAsync]
    rfl
  have hu : "/posts".isEmpty = false := rfl
  norm_num [HttpService.get, Guard.throwIfNullOrEmpty, HttpService.makeRequest,
    HttpService.getRetryConfiguration, HttpService.noRetry, hr, hu]

end HttpRepo
